import Mathlib

/-!
Verification of the reliable outbound message-publishing layer of the
auth-service repository: the RabbitMQ `MessageProducer`
(src/messaging/producers/producer.ts), the envelope builder and audit-log
façade (src/services/auditLogService.ts) and the `MessageService` façade.

The TypeScript code is shallowly embedded: JavaScript objects become Lean
structures, `async` control flow with `try/catch` becomes explicit result
values, broker behaviour (connect outcomes, publish confirmations) becomes
oracle parameters, and the single-threaded event loop with suspension at
`await` becomes a small-step task model where noted.
-/

namespace AuthService

/-! ## JSON values

A model of JSON-serializable JavaScript values, used for the envelope
round-trip and for the `any`-typed payload fields. -/

inductive Json where
  | null : Json
  | bool (b : Bool) : Json
  | num (n : Int) : Json
  | str (s : String) : Json
  | arr (elems : List Json) : Json
  | obj (fields : List (String × Json)) : Json


/-! ## Envelope data model (src/services/auditLogService.ts interfaces) -/

/-- `action: 'CREATE' | 'UPDATE' | 'DELETE'` -/
inductive AuditAction where
  | create | update | delete


/-- `status: 'SUCCESS' | 'FAILURE'` -/
inductive AuditStatus where
  | success | failure


/-- `changes?: { oldValue: any; newValue: any }` -/
structure ChangeSet where
  oldValue : Json
  newValue : Json


/-- interface AuditLogPayload; optional fields are `Option` (an absent or
`undefined` field is `none`, and `JSON.stringify` omits it). -/
structure AuditLogPayload where
  userId : String
  username : Option String
  userEmail : Option String
  action : AuditAction
  status : AuditStatus
  description : String
  changes : Option ChangeSet
  metadata : Option Json


/-- interface AuditLogMetadata. -/
structure AuditLogMetadata where
  tenantId : String
  timestamp : String
  version : String
  source : String
  sourceVersion : String
  eventType : String
  correlationId : Option String
  causationId : Option String


/-- headers of an AuditLogMessage: `'content-type'` and `'schema-version'`. -/
structure MessageHeaders where
  contentType : String
  schemaVersion : String


/-- interface AuditLogMessage. -/
structure AuditLogMessage where
  metadata : AuditLogMetadata
  payload : AuditLogPayload
  headers : Option MessageHeaders


/-- `AuditLogService.createMessage(tenantId, eventType, payload)`.
The embedded wall-clock timestamp `new Date().toISOString()` is passed in
as the explicit parameter `now`.  The source builds the object literal
with `version: 'v1.0'`, `source: 'auth-service'`, `sourceVersion: '1.0.0'`,
`correlationId: ''`, `causationId: ''` and fixed headers; it contains no
conditional, no check of `tenantId` or `eventType`, and no failure path. -/
def createMessage (now : String) (tenantId : String) (eventType : String)
    (payload : AuditLogPayload) : AuditLogMessage :=
  { metadata :=
      { tenantId := tenantId
        timestamp := now
        version := "v1.0"
        source := "auth-service"
        sourceVersion := "1.0.0"
        eventType := eventType
        correlationId := some ""
        causationId := some "" }
    payload := payload
    headers := some { contentType := "application/json", schemaVersion := "1.0" } }

/-! ## JSON serialization of the envelope

`JSON.stringify` turns the message object into a JSON object whose keys
follow the object-literal insertion order and whose `undefined`-valued
keys are omitted; `JSON.parse` plus property access reads fields back by
name.  `encode*` builds the JSON object, `decode*` reads it back via
association-list lookup. -/

/-- a key that is present only when the optional value is present. -/
def optStrField (name : String) : Option String → List (String × Json)
  | none => []
  | some s => [(name, Json.str s)]

def encodeAction : AuditAction → Json
  | .create => Json.str "CREATE"
  | .update => Json.str "UPDATE"
  | .delete => Json.str "DELETE"

def decodeAction : Json → Option AuditAction
  | Json.str "CREATE" => some .create
  | Json.str "UPDATE" => some .update
  | Json.str "DELETE" => some .delete
  | _ => none

def encodeStatus : AuditStatus → Json
  | .success => Json.str "SUCCESS"
  | .failure => Json.str "FAILURE"

def decodeStatus : Json → Option AuditStatus
  | Json.str "SUCCESS" => some .success
  | Json.str "FAILURE" => some .failure
  | _ => none

def encodeChangeSet (c : ChangeSet) : Json :=
  Json.obj [("oldValue", c.oldValue), ("newValue", c.newValue)]

def decodeChangeSet : Json → Option ChangeSet
  | Json.obj fields => do
      let old ← fields.lookup "oldValue"
      let new ← fields.lookup "newValue"
      pure { oldValue := old, newValue := new }
  | _ => none

def encodePayload (p : AuditLogPayload) : Json :=
  Json.obj ([("userId", Json.str p.userId)]
    ++ optStrField "username" p.username
    ++ optStrField "userEmail" p.userEmail
    ++ [("action", encodeAction p.action), ("status", encodeStatus p.status),
        ("description", Json.str p.description)]
    ++ (match p.changes with
        | none => []
        | some c => [("changes", encodeChangeSet c)])
    ++ (match p.metadata with
        | none => []
        | some m => [("metadata", m)]))

/-- read an optional string-valued property. -/
def lookupOptStr (fields : List (String × Json)) (name : String) :
    Option (Option String) :=
  match fields.lookup name with
  | none => some none
  | some (Json.str s) => some (some s)
  | some _ => none

def decodePayload : Json → Option AuditLogPayload
  | Json.obj fields => do
      let Json.str userId ← fields.lookup "userId" | none
      let username ← lookupOptStr fields "username"
      let userEmail ← lookupOptStr fields "userEmail"
      let actionJ ← fields.lookup "action"
      let action ← decodeAction actionJ
      let statusJ ← fields.lookup "status"
      let status ← decodeStatus statusJ
      let Json.str description ← fields.lookup "description" | none
      let changes ← match fields.lookup "changes" with
        | none => some none
        | some j => (decodeChangeSet j).map some
      let metadata : Option Json := fields.lookup "metadata"
      pure { userId := userId, username := username, userEmail := userEmail,
             action := action, status := status, description := description,
             changes := changes, metadata := metadata }
  | _ => none

def encodeMetadata (m : AuditLogMetadata) : Json :=
  Json.obj ([("tenantId", Json.str m.tenantId), ("timestamp", Json.str m.timestamp),
             ("version", Json.str m.version), ("source", Json.str m.source),
             ("sourceVersion", Json.str m.sourceVersion),
             ("eventType", Json.str m.eventType)]
    ++ optStrField "correlationId" m.correlationId
    ++ optStrField "causationId" m.causationId)

def decodeMetadata : Json → Option AuditLogMetadata
  | Json.obj fields => do
      let Json.str tenantId ← fields.lookup "tenantId" | none
      let Json.str timestamp ← fields.lookup "timestamp" | none
      let Json.str version ← fields.lookup "version" | none
      let Json.str source ← fields.lookup "source" | none
      let Json.str sourceVersion ← fields.lookup "sourceVersion" | none
      let Json.str eventType ← fields.lookup "eventType" | none
      let correlationId ← lookupOptStr fields "correlationId"
      let causationId ← lookupOptStr fields "causationId"
      pure { tenantId := tenantId, timestamp := timestamp, version := version,
             source := source, sourceVersion := sourceVersion,
             eventType := eventType, correlationId := correlationId,
             causationId := causationId }
  | _ => none

def encodeHeaders (h : MessageHeaders) : Json :=
  Json.obj [("content-type", Json.str h.contentType),
            ("schema-version", Json.str h.schemaVersion)]

def decodeHeaders : Json → Option MessageHeaders
  | Json.obj fields => do
      let Json.str ct ← fields.lookup "content-type" | none
      let Json.str sv ← fields.lookup "schema-version" | none
      pure { contentType := ct, schemaVersion := sv }
  | _ => none

def encodeMessage (m : AuditLogMessage) : Json :=
  Json.obj ([("metadata", encodeMetadata m.metadata),
             ("payload", encodePayload m.payload)]
    ++ (match m.headers with
        | none => []
        | some h => [("headers", encodeHeaders h)]))

def decodeMessage : Json → Option AuditLogMessage
  | Json.obj fields => do
      let metaJ ← fields.lookup "metadata"
      let metadata ← decodeMetadata metaJ
      let payloadJ ← fields.lookup "payload"
      let payload ← decodePayload payloadJ
      let headers ← match fields.lookup "headers" with
        | none => some none
        | some j => (decodeHeaders j).map some
      pure { metadata := metadata, payload := payload, headers := headers }
  | _ => none

/-! ## Producer configuration (MessageProducer constructor) -/

/-- the optional `ProducerConfig` argument of the constructor; `none` is an
absent (`undefined`) property. -/
structure ProducerConfigInput where
  url : Option String
  reconnectDelay : Option Nat
  maxReconnectAttempts : Option Nat
  heartbeat : Option Nat
  prefetch : Option Nat

/-- the resolved configuration stored in `this.config`. -/
structure ProducerConfig where
  url : String
  reconnectDelay : Nat
  maxReconnectAttempts : Nat
  heartbeat : Nat
  prefetch : Nat

/-- JavaScript `v || d` on an optional number: both `undefined` and `0` are
falsy, so the default is taken for either. -/
def jsNumOr (v : Option Nat) (d : Nat) : Nat :=
  match v with
  | none => d
  | some n => if n = 0 then d else n

/-- JavaScript `v || d` on an optional string: `undefined` and `""` are falsy. -/
def jsStrOr (v : Option String) (d : String) : String :=
  match v with
  | none => d
  | some s => if s = "" then d else s

/-- the `MessageProducer` constructor: each field is defaulted with `||`;
`envUrl` is `process.env.RABBITMQ_URL`. -/
def mkProducerConfig (cfg : ProducerConfigInput) (envUrl : Option String) :
    ProducerConfig :=
  { url := jsStrOr cfg.url (jsStrOr envUrl "amqp://localhost")
    reconnectDelay := jsNumOr cfg.reconnectDelay 5000
    maxReconnectAttempts := jsNumOr cfg.maxReconnectAttempts 10
    heartbeat := jsNumOr cfg.heartbeat 60
    prefetch := jsNumOr cfg.prefetch 10 }

/-! ## Producer state and connection life cycle

The mutable fields of a `MessageProducer`.  The `connection` and `channel`
object references are modelled by their nullness alone; the broker is an
oracle `env : Nat → Option String` giving the outcome of the `i`-th
connection bring-up (`none` = connect, channel creation and prefetch all
succeed; `some e` = the bring-up rejects with error `e`).  Observable
effects are recorded in a trace of `Action`s. -/

structure ProducerState where
  connection : Bool
  channel : Bool
  isInitialized : Bool
  reconnectAttempts : Nat
  isShuttingDown : Bool

/-- the field initializers of a newly constructed `MessageProducer`. -/
def ProducerState.fresh : ProducerState :=
  { connection := false, channel := false, isInitialized := false,
    reconnectAttempts := 0, isShuttingDown := false }

inductive Action where
  | connectAttempt
  | waitDelay (ms : Nat)
  | closeChannel
  | closeConnection
  | publish

/-- outcome of an awaited async call: final state, trace of observable
actions, the rejection (if the call threw), and the index of the next
unconsumed connect outcome in the oracle. -/
structure InitResult where
  state : ProducerState
  trace : List Action
  err : Option String
  nextConn : Nat

mutual

/-- models `MessageProducer.initialize()`: returns at once when
`isInitialized`; otherwise performs one connection bring-up.  On success it
stores connection and channel, sets `isInitialized` and resets the attempt
counter.  On failure it awaits `attemptReconnect()` (unless shutting down)
and then rethrows the original error. -/
def initConn (cfg : ProducerConfig) (env : Nat → Option String)
    (s : ProducerState) (i : Nat) : InitResult :=
  if s.isInitialized then ⟨s, [], none, i⟩
  else
    match env i with
    | none =>
        ⟨{ s with connection := true, channel := true, isInitialized := true,
                  reconnectAttempts := 0 },
          [Action.connectAttempt], none, i + 1⟩
    | some e =>
        if s.isShuttingDown then
          ⟨s, [Action.connectAttempt], some e, i + 1⟩
        else
          let r := attemptReconnect cfg env s (i + 1)
          ⟨r.state, Action.connectAttempt :: r.trace, some e, r.nextConn⟩
termination_by (cfg.maxReconnectAttempts + 1 - s.reconnectAttempts, 1)

/-- models `MessageProducer.attemptReconnect()`: no-op when shutting down or
when the attempt counter has reached the maximum; otherwise increments the
counter, waits `reconnectDelay`, awaits `initialize()` and swallows its
error.  Never rejects. -/
def attemptReconnect (cfg : ProducerConfig) (env : Nat → Option String)
    (s : ProducerState) (i : Nat) : InitResult :=
  if s.isShuttingDown then ⟨s, [], none, i⟩
  else if _h : cfg.maxReconnectAttempts ≤ s.reconnectAttempts then
    ⟨s, [], none, i⟩
  else
    let r := initConn cfg env { s with reconnectAttempts := s.reconnectAttempts + 1 } i
    ⟨r.state, Action.waitDelay cfg.reconnectDelay :: r.trace, none, r.nextConn⟩
termination_by (cfg.maxReconnectAttempts + 1 - s.reconnectAttempts, 0)

end

/-! Branch equations for the two mutually recursive operations. -/

lemma initConn_of_isInit (cfg : ProducerConfig) (env : Nat → Option String)
    (s : ProducerState) (i : Nat) (h : s.isInitialized = true) :
    initConn cfg env s i = ⟨s, [], none, i⟩ := by
  rw [initConn]
  simp [h]

lemma initConn_success (cfg : ProducerConfig) (env : Nat → Option String)
    (s : ProducerState) (i : Nat) (hni : s.isInitialized = false)
    (he : env i = none) :
    initConn cfg env s i =
      ⟨{ s with connection := true, channel := true, isInitialized := true,
                reconnectAttempts := 0 },
        [Action.connectAttempt], none, i + 1⟩ := by
  rw [initConn]
  simp [hni, he]

lemma initConn_fail_shutdown (cfg : ProducerConfig) (env : Nat → Option String)
    (s : ProducerState) (i : Nat) (e : String) (hni : s.isInitialized = false)
    (hsd : s.isShuttingDown = true) (he : env i = some e) :
    initConn cfg env s i = ⟨s, [Action.connectAttempt], some e, i + 1⟩ := by
  rw [initConn]
  simp [hni, hsd, he]

lemma initConn_fail (cfg : ProducerConfig) (env : Nat → Option String)
    (s : ProducerState) (i : Nat) (e : String) (hni : s.isInitialized = false)
    (hsd : s.isShuttingDown = false) (he : env i = some e) :
    initConn cfg env s i =
      ⟨(attemptReconnect cfg env s (i + 1)).state,
        Action.connectAttempt :: (attemptReconnect cfg env s (i + 1)).trace,
        some e, (attemptReconnect cfg env s (i + 1)).nextConn⟩ := by
  rw [initConn]
  simp [hni, hsd, he]

lemma attemptReconnect_shutdown (cfg : ProducerConfig)
    (env : Nat → Option String) (s : ProducerState) (i : Nat)
    (hsd : s.isShuttingDown = true) :
    attemptReconnect cfg env s i = ⟨s, [], none, i⟩ := by
  rw [attemptReconnect]
  rw [if_pos hsd]

lemma attemptReconnect_maxed (cfg : ProducerConfig)
    (env : Nat → Option String) (s : ProducerState) (i : Nat)
    (hma : cfg.maxReconnectAttempts ≤ s.reconnectAttempts) :
    attemptReconnect cfg env s i = ⟨s, [], none, i⟩ := by
  rw [attemptReconnect]
  by_cases hsd : s.isShuttingDown = true
  · rw [if_pos hsd]
  · rw [if_neg hsd, dif_pos hma]

lemma attemptReconnect_retry (cfg : ProducerConfig)
    (env : Nat → Option String) (s : ProducerState) (i : Nat)
    (hsd : s.isShuttingDown = false)
    (hma : s.reconnectAttempts < cfg.maxReconnectAttempts) :
    attemptReconnect cfg env s i =
      ⟨(initConn cfg env { s with reconnectAttempts := s.reconnectAttempts + 1 } i).state,
        Action.waitDelay cfg.reconnectDelay ::
          (initConn cfg env { s with reconnectAttempts := s.reconnectAttempts + 1 } i).trace,
        none,
        (initConn cfg env { s with reconnectAttempts := s.reconnectAttempts + 1 } i).nextConn⟩ := by
  rw [attemptReconnect]
  rw [if_neg (by simp [hsd]), dif_neg (by omega)]

/-- models `MessageProducer.ensureConnection()`: awaits `initialize()` when
not initialized or the connection reference is null. -/
def ensureConnection (cfg : ProducerConfig) (env : Nat → Option String)
    (s : ProducerState) (i : Nat) : InitResult :=
  if s.isInitialized && s.connection then ⟨s, [], none, i⟩
  else initConn cfg env s i

/-- result of an awaited `sendMessage` promise: distinguishes a resolution,
a rejection by the confirm callback, and a thrown error. -/
inductive SendOutcome where
  | resolved (b : Bool)
  | rejected (e : String)
  | threw (e : String)

structure SendResult where
  outcome : SendOutcome
  state : ProducerState
  trace : List Action
  nextConn : Nat

/-- models `MessageProducer.sendMessage(queue, message)`: awaits
`ensureConnection()` (whose rejection propagates, since it is awaited
outside the try block); throws `'Channel not available'` when the channel
reference is null; `assertFail` is the outcome of `channel.assertQueue`
(thrown after being caught and logged); `ack` is the `err` argument the
broker passes to the confirm callback — `none` resolves the promise with
`true`, `some e` rejects it with `e`. -/
def sendMessage (cfg : ProducerConfig) (env : Nat → Option String)
    (assertFail : Option String) (ack : Option String)
    (s : ProducerState) (i : Nat) : SendResult :=
  let r := ensureConnection cfg env s i
  match r.err with
  | some e => ⟨.threw e, r.state, r.trace, r.nextConn⟩
  | none =>
    if r.state.channel then
      match assertFail with
      | some e => ⟨.threw e, r.state, r.trace, r.nextConn⟩
      | none =>
        match ack with
        | some e => ⟨.rejected e, r.state, r.trace ++ [Action.publish], r.nextConn⟩
        | none => ⟨.resolved true, r.state, r.trace ++ [Action.publish], r.nextConn⟩
    else ⟨.threw "Channel not available", r.state, r.trace, r.nextConn⟩

/-- models `MessageProducer.isConnected()`. -/
def isConnected (s : ProducerState) : Bool :=
  s.isInitialized && s.connection && s.channel

structure CloseResult where
  state : ProducerState
  trace : List Action
  err : Option String

/-- second half of `close()`: `if (this.connection) { await
this.connection.close(); this.connection = null; } this.isInitialized =
false;` with `connCloseErr` the outcome of `connection.close()`.  A
rejection aborts the try block, so `isInitialized` is not reset there. -/
def closeConnStep (connCloseErr : Option String) (s : ProducerState) :
    CloseResult :=
  if s.connection then
    match connCloseErr with
    | some e => ⟨s, [Action.closeConnection], some e⟩
    | none => ⟨{ s with connection := false, isInitialized := false },
               [Action.closeConnection], none⟩
  else ⟨{ s with isInitialized := false }, [], none⟩

/-- models `MessageProducer.close()`: sets `isShuttingDown` first, then in a
single try block closes the channel (clearing its reference) and then the
connection; the catch block logs and rethrows, so an error closing the
channel skips the connection close and propagates to the caller. -/
def close (chanCloseErr connCloseErr : Option String) (s : ProducerState) :
    CloseResult :=
  let s0 := { s with isShuttingDown := true }
  if s0.channel then
    match chanCloseErr with
    | some e => ⟨s0, [Action.closeChannel], some e⟩
    | none =>
      let r := closeConnStep connCloseErr { s0 with channel := false }
      ⟨r.state, Action.closeChannel :: r.trace, r.err⟩
  else closeConnStep connCloseErr s0

/-! ## Façade services

`AuditLogService.sendAuditLog` and the two static `MessageService`
operations wrap their whole body in try/catch and return a boolean.  The
body's interactions are abstracted by their outcomes: `stringifyErr` /
`genErr` for the synchronous message-construction step, and the awaited
`SendOutcome` of `producer.sendMessage`. -/

inductive JsResult (α : Type) where
  | ok (a : α)
  | exn (e : String)

/-- awaiting a promise: a rejection raises in the awaiting caller. -/
def awaited : SendOutcome → JsResult Bool
  | .resolved b => .ok b
  | .rejected e => .exn e
  | .threw e => .exn e

/-- the try-block body of `AuditLogService.sendAuditLog`:
`JSON.stringify` for the log line (may throw), then the awaited
`producer.sendMessage` value is returned. -/
def sendAuditLogBody (stringifyErr : Option String) (send : SendOutcome) :
    JsResult Bool :=
  match stringifyErr with
  | some e => .exn e
  | none => awaited send

/-- models `AuditLogService.sendAuditLog`: the catch block converts any
exception into a `false` return. -/
def sendAuditLog (stringifyErr : Option String) (send : SendOutcome) :
    JsResult Bool :=
  match sendAuditLogBody stringifyErr send with
  | .ok b => .ok b
  | .exn _ => .ok false

/-- the shared try-block body of `MessageService.sendAuthLogsMessage` and
`MessageService.sendUserData`: `generateKafkaMessage` (may throw), the
awaited `producer.sendMessage` (its resolved value is discarded), then
`return true`. -/
def messageServiceBody (genErr : Option String) (send : SendOutcome) :
    JsResult Bool :=
  match genErr with
  | some e => .exn e
  | none =>
    match awaited send with
    | .ok _ => .ok true
    | .exn e => .exn e

/-- models `MessageService.sendAuthLogsMessage`. -/
def sendAuthLogsMessage (genErr : Option String) (send : SendOutcome) :
    JsResult Bool :=
  match messageServiceBody genErr send with
  | .ok b => .ok b
  | .exn _ => .ok false

/-- models `MessageService.sendUserData`. -/
def sendUserData (genErr : Option String) (send : SendOutcome) :
    JsResult Bool :=
  match messageServiceBody genErr send with
  | .ok b => .ok b
  | .exn _ => .ok false

/-! ## Concurrent calls to initialize()

The event loop runs each task synchronously up to its first `await`.  For
`initialize()` that prefix is: check `isInitialized` (return at once when
set) and otherwise start `amqp.connect`, which suspends the task while the
connect is in flight.  `runReadyTask` performs that prefix for one pending
task; connect completions are separate events, so any number of tasks can
run their prefix before the first connect completes. -/

inductive TaskPhase where
  | ready
  | awaitingConnect
  | finished

structure ConcState where
  prod : ProducerState
  tasks : List TaskPhase
  connectsInFlight : Nat

/-- runs the synchronous prefix of one `initialize()` task. -/
def runReadyTask (c : ConcState) (j : Nat) : ConcState :=
  match c.tasks.get? j with
  | some TaskPhase.ready =>
      if c.prod.isInitialized then
        { c with tasks := c.tasks.set j TaskPhase.finished }
      else
        { c with tasks := c.tasks.set j TaskPhase.awaitingConnect,
                 connectsInFlight := c.connectsInFlight + 1 }
  | _ => c

/-! ## Trace observations -/

def isWait : Action → Bool
  | .waitDelay _ => true
  | _ => false

def isConnect : Action → Bool
  | .connectAttempt => true
  | _ => false

/-- number of reconnect delays in a trace. -/
def waitCount (tr : List Action) : Nat := tr.countP isWait

/-- number of connection attempts in a trace. -/
def connectCount (tr : List Action) : Nat := tr.countP isConnect

/-! ## Concrete fixtures used by witnesses and counterexamples -/

/-- a resolved configuration equal to the all-default one. -/
def cfg0 : ProducerConfig :=
  { url := "amqp://localhost", reconnectDelay := 5000,
    maxReconnectAttempts := 10, heartbeat := 60, prefetch := 10 }

/-- a configuration with `maxReconnectAttempts = 2` and a short delay. -/
def cfg2 : ProducerConfig :=
  { url := "amqp://localhost", reconnectDelay := 10,
    maxReconnectAttempts := 2, heartbeat := 60, prefetch := 10 }

/-- a broker that accepts every connection. -/
def envOk : Nat → Option String := fun _ => none

/-- a broker that refuses every connection. -/
def envDown : Nat → Option String := fun _ => some "ECONNREFUSED"

/-- the state of a producer whose initialization has succeeded. -/
def conState : ProducerState :=
  { connection := true, channel := true, isInitialized := true,
    reconnectAttempts := 0, isShuttingDown := false }

/-- the state of a producer after a successful `close()`. -/
def closedState : ProducerState :=
  { connection := false, channel := false, isInitialized := false,
    reconnectAttempts := 0, isShuttingDown := true }

/-- a small payload value. -/
def samplePayload : AuditLogPayload :=
  { userId := "u1", username := none, userEmail := none,
    action := AuditAction.create, status := AuditStatus.success,
    description := "created a user", changes := none, metadata := none }

/-! ## Claims -/

/-- Claim C10: constructing a `MessageProducer` with `reconnectDelay`,
`maxReconnectAttempts`, `heartbeat` or `prefetch` explicitly set to `0`
yields the documented defaults (5000, 10, 60, 10) instead of the supplied
zero, because the constructor defaults with the falsy `||` operator; in
particular `maxReconnectAttempts = 0` does not disable reconnection but
allows 10 attempts. -/
theorem C10_zero_config_yields_defaults (url envUrl : Option String) :
    (mkProducerConfig ⟨url, some 0, some 0, some 0, some 0⟩ envUrl).reconnectDelay = 5000 ∧
    (mkProducerConfig ⟨url, some 0, some 0, some 0, some 0⟩ envUrl).maxReconnectAttempts = 10 ∧
    (mkProducerConfig ⟨url, some 0, some 0, some 0, some 0⟩ envUrl).heartbeat = 60 ∧
    (mkProducerConfig ⟨url, some 0, some 0, some 0, some 0⟩ envUrl).prefetch = 10 :=
  ⟨rfl, rfl, rfl, rfl⟩

/-- Claim C3: the façade operations — `AuditLogService.sendAuditLog` and
`MessageService.sendUserData` / `sendAuthLogsMessage` — always resolve to a
boolean and never throw or reject: whatever the outcome of message
construction and of `producer.sendMessage`, each returns `ok` of a boolean,
and any exception raised inside the try block is converted into an `ok
false` return. -/
theorem C3_facade_never_throws (stringifyErr genErr genErr2 : Option String)
    (s1 s2 s3 : SendOutcome) :
    ((∃ b, sendAuditLog stringifyErr s1 = JsResult.ok b) ∧
     (∃ b, sendAuthLogsMessage genErr s2 = JsResult.ok b) ∧
     (∃ b, sendUserData genErr2 s3 = JsResult.ok b)) ∧
    (∀ e, sendAuditLogBody stringifyErr s1 = JsResult.exn e →
      sendAuditLog stringifyErr s1 = JsResult.ok false) ∧
    (∀ e, messageServiceBody genErr s2 = JsResult.exn e →
      sendAuthLogsMessage genErr s2 = JsResult.ok false) ∧
    (∀ e, messageServiceBody genErr2 s3 = JsResult.exn e →
      sendUserData genErr2 s3 = JsResult.ok false) := by
  refine ⟨⟨?_, ?_, ?_⟩, ?_, ?_, ?_⟩
  · cases h : sendAuditLogBody stringifyErr s1 <;> simp [sendAuditLog, h]
  · cases h : messageServiceBody genErr s2 <;> simp [sendAuthLogsMessage, h]
  · cases h : messageServiceBody genErr2 s3 <;> simp [sendUserData, h]
  · intro e h; simp [sendAuditLog, h]
  · intro e h; simp [sendAuthLogsMessage, h]
  · intro e h; simp [sendUserData, h]

/-- Witness for C3: a `sendAuditLog` whose `JSON.stringify` throws returns
`ok false`. -/
theorem C3_facade_never_throws_witness :
    sendAuditLog (some "circular") (SendOutcome.resolved true) = JsResult.ok false :=
  (C3_facade_never_throws (some "circular") none none
      (SendOutcome.resolved true) (SendOutcome.resolved true)
      (SendOutcome.resolved true)).2.1 "circular" rfl

/-- Counterexample for C7: with an empty tenant identifier and an empty
event type, `createMessage` does not fail — it returns an envelope that
embeds the empty strings.  The source function is a single object literal
with no conditional and no throw, so no input makes the builder fail. -/
theorem C7_counterexample :
    createMessage "2024-01-01T00:00:00.000Z" "" "" samplePayload =
      { metadata :=
          { tenantId := "", timestamp := "2024-01-01T00:00:00.000Z",
            version := "v1.0", source := "auth-service",
            sourceVersion := "1.0.0", eventType := "",
            correlationId := some "", causationId := some "" }
        payload := samplePayload
        headers := some { contentType := "application/json",
                          schemaVersion := "1.0" } } := rfl

/-- Claim C7 as amended: `createMessage` performs no validation at all —
for every input, including an empty tenant identifier or event type, it
returns an envelope embedding the inputs verbatim, and it never inspects
the payload. -/
theorem C7_no_validation (now tid et : String) (p : AuditLogPayload) :
    (createMessage now tid et p).metadata.tenantId = tid ∧
    (createMessage now tid et p).metadata.eventType = et ∧
    (createMessage now tid et p).payload = p :=
  ⟨rfl, rfl, rfl⟩

/-- Claim C1: on a connected producer, `sendMessage` resolves to `true` if
and only if the broker's confirm callback reports no error; when the broker
negatively acknowledges, the call rejects with that error; and when the
channel reference is null the call throws. -/
theorem C1_send_resolves_iff_acked (cfg : ProducerConfig)
    (env : Nat → Option String) (ack : Option String) (s : ProducerState)
    (i : Nat) (hInit : s.isInitialized = true) (hConn : s.connection = true) :
    (s.channel = true →
      (((sendMessage cfg env none ack s i).outcome = SendOutcome.resolved true) ↔
        ack = none) ∧
      (∀ e, ack = some e →
        (sendMessage cfg env none ack s i).outcome = SendOutcome.rejected e)) ∧
    (s.channel = false →
      (sendMessage cfg env none ack s i).outcome =
        SendOutcome.threw "Channel not available") := by
  have hr : ensureConnection cfg env s i = ⟨s, [], none, i⟩ := by
    simp [ensureConnection, hInit, hConn]
  constructor
  · intro hc
    cases ack <;> simp [sendMessage, hr, hc]
  · intro hc
    simp [sendMessage, hr, hc]

/-- Witness for C1: with the broker acknowledging, a send on a connected
producer resolves to `true`. -/
theorem C1_send_resolves_iff_acked_witness :
    (sendMessage cfg0 envOk none none conState 0).outcome =
      SendOutcome.resolved true :=
  (((C1_send_resolves_iff_acked cfg0 envOk none conState 0 rfl rfl).1 rfl).1).mpr rfl

/-- Counterexample for C5: when closing the channel fails, `close()`
propagates that error to its caller, never attempts to close the
connection, and leaves the channel reference set — contradicting the
claimed independent best-effort teardown that never propagates errors. -/
theorem C5_counterexample :
    (close (some "chan-close-failed") none conState).err = some "chan-close-failed" ∧
    (close (some "chan-close-failed") none conState).trace = [Action.closeChannel] ∧
    (close (some "chan-close-failed") none conState).state.channel = true :=
  ⟨rfl, rfl, rfl⟩

/-- Claim C5 as amended: `close()` sets the shutting-down flag before any
teardown; it closes the channel and then the connection inside one try
block, so when closing the channel fails the connection close is skipped,
the channel reference is kept and the error propagates to the caller; when
both closes succeed the references are cleared and no error propagates; a
second `close()` after a successful one is safe (nothing is left to close,
so it cannot throw). -/
theorem C5_close_behaviour (c1 c2 : Option String) (e : String)
    (s : ProducerState) :
    (close c1 c2 s).state.isShuttingDown = true ∧
    (close none none s).err = none ∧
    (close none none s).state.channel = false ∧
    (close none none s).state.connection = false ∧
    (close none none s).state.isInitialized = false ∧
    (∀ d1 d2, (close d1 d2 (close none none s).state).err = none) ∧
    (s.channel = true →
      (close (some e) c2 s).err = some e ∧
      (close (some e) c2 s).trace = [Action.closeChannel] ∧
      (close (some e) c2 s).state.channel = true) := by
  obtain ⟨sconn, schan, sinit, sr, ss⟩ := s
  cases c1 <;> cases c2 <;> cases sconn <;> cases schan <;>
    simp [close, closeConnStep]

/-- Witness for C5: closing a connected producer whose channel close fails
propagates the error. -/
theorem C5_close_behaviour_witness :
    (close (some "boom") none conState).err = some "boom" :=
  ((C5_close_behaviour (some "boom") none "boom" conState).2.2.2.2.2.2 rfl).1

/-- Counterexample for C4: after `close()` has completed, a `sendMessage`
call does not fail fast — `ensureConnection` sees `isInitialized = false`
and re-runs the connection bring-up; with a reachable broker the send even
succeeds, after exactly one new connection attempt. -/
theorem C4_counterexample :
    (close none none conState).state = closedState ∧
    (sendMessage cfg0 envOk none none closedState 0).outcome =
      SendOutcome.resolved true ∧
    connectCount (sendMessage cfg0 envOk none none closedState 0).trace = 1 := by
  refine ⟨rfl, ?_, ?_⟩
  · simp [sendMessage, ensureConnection, initConn, closedState, envOk]
  · simp only [sendMessage, ensureConnection, initConn, closedState, envOk]
    rfl

/-- Claim C4 as amended: after `close()` has completed, a `sendMessage`
call re-attempts the connection once via `initialize()`; when that attempt
fails, the error propagates and no reconnect is scheduled — the trace is
exactly one connection attempt with no delay, because `isShuttingDown`
makes `attemptReconnect` a no-op. -/
theorem C4_send_after_close (cfg : ProducerConfig) (env : Nat → Option String)
    (assertFail ack : Option String) (i : Nat) (e : String)
    (hEnv : env i = some e) :
    (sendMessage cfg env assertFail ack closedState i).outcome =
      SendOutcome.threw e ∧
    (sendMessage cfg env assertFail ack closedState i).trace =
      [Action.connectAttempt] := by
  have h : ensureConnection cfg env closedState i =
      ⟨closedState, [Action.connectAttempt], some e, i + 1⟩ := by
    rw [ensureConnection]
    simp only [closedState, Bool.false_and, Bool.and_false, if_neg,
      Bool.false_eq_true, not_false_iff]
    rw [initConn]
    simp [hEnv]
  simp [sendMessage, h]

/-- Witness for C4: with the broker down, a send after close throws. -/
theorem C4_send_after_close_witness :
    (sendMessage cfg0 envDown none none closedState 0).outcome =
      SendOutcome.threw "ECONNREFUSED" :=
  (C4_send_after_close cfg0 envDown none none 0 "ECONNREFUSED" rfl).1

/-- any run of `attemptReconnect` contains at most
`maxReconnectAttempts - reconnectAttempts` reconnect delays. -/
lemma waitCount_attemptReconnect_le (cfg : ProducerConfig)
    (env : Nat → Option String) :
    ∀ (n : Nat) (s : ProducerState) (i : Nat),
      cfg.maxReconnectAttempts - s.reconnectAttempts ≤ n →
      waitCount (attemptReconnect cfg env s i).trace ≤
        cfg.maxReconnectAttempts - s.reconnectAttempts := by
  intro n
  induction n with
  | zero =>
      intro s i h
      cases hsd : s.isShuttingDown with
      | true =>
          rw [attemptReconnect_shutdown cfg env s i hsd]
          simp [waitCount]
      | false =>
          rw [attemptReconnect_maxed cfg env s i (by omega)]
          simp [waitCount]
  | succ n ih =>
      intro s i h
      cases hsd : s.isShuttingDown with
      | true =>
          rw [attemptReconnect_shutdown cfg env s i hsd]
          simp [waitCount]
      | false =>
          by_cases hma : cfg.maxReconnectAttempts ≤ s.reconnectAttempts
          · rw [attemptReconnect_maxed cfg env s i hma]
            simp [waitCount]
          · rw [attemptReconnect_retry cfg env s i hsd (by omega)]
            have hIC : waitCount (initConn cfg env
                { s with reconnectAttempts := s.reconnectAttempts + 1 } i).trace ≤
                cfg.maxReconnectAttempts - (s.reconnectAttempts + 1) := by
              by_cases hI : s.isInitialized = true
              · rw [initConn_of_isInit cfg env
                  { s with reconnectAttempts := s.reconnectAttempts + 1 } i hI]
                simp [waitCount]
              · have hI' : s.isInitialized = false := by simpa using hI
                cases he : env i with
                | none =>
                    rw [initConn_success cfg env
                      { s with reconnectAttempts := s.reconnectAttempts + 1 } i hI' he]
                    simp [waitCount, isWait]
                | some e =>
                    rw [initConn_fail cfg env
                      { s with reconnectAttempts := s.reconnectAttempts + 1 } i e hI' hsd he]
                    have hb := ih { s with reconnectAttempts := s.reconnectAttempts + 1 }
                      (i + 1) (by simp; omega)
                    simp [waitCount, List.countP_cons, isWait] at hb ⊢
                    omega
            simp [waitCount, List.countP_cons, isWait] at hIC ⊢
            omega

/-- Claim C2: reconnect attempts are bounded — once the attempt counter has
reached `maxReconnectAttempts`, `attemptReconnect` returns without
incrementing the counter, waiting, or calling `initialize()` (it is the
identity on the state with an empty trace), and in general a single entry
into the reconnect path performs at most
`maxReconnectAttempts - reconnectAttempts` delayed attempts, so no further
reconnect is scheduled until an external re-initialization. -/
theorem C2_reconnect_attempts_bounded (cfg : ProducerConfig)
    (env : Nat → Option String) (s : ProducerState) (i : Nat)
    (h : cfg.maxReconnectAttempts ≤ s.reconnectAttempts) :
    attemptReconnect cfg env s i = ⟨s, [], none, i⟩ ∧
    ∀ (s' : ProducerState) (i' : Nat),
      waitCount (attemptReconnect cfg env s' i').trace ≤
        cfg.maxReconnectAttempts - s'.reconnectAttempts := by
  constructor
  · exact attemptReconnect_maxed cfg env s i h
  · intro s' i'
    exact waitCount_attemptReconnect_le cfg env _ s' i' le_rfl

/-- Witness for C2: with the counter already at the maximum of `cfg2`,
`attemptReconnect` is a no-op. -/
theorem C2_reconnect_attempts_bounded_witness :
    attemptReconnect cfg2 envDown
      { ProducerState.fresh with reconnectAttempts := 2 } 0 =
      ⟨{ ProducerState.fresh with reconnectAttempts := 2 }, [], none, 0⟩ :=
  (C2_reconnect_attempts_bounded cfg2 envDown
    { ProducerState.fresh with reconnectAttempts := 2 } 0 (by decide)).1

/-- a fully failing `initialize()` run performs exactly
`maxReconnectAttempts - reconnectAttempts + 1` connection attempts, because
its catch block calls `attemptReconnect`, which calls `initialize()` again
— direct recursion. -/
lemma connectCount_initConn_all_fail (cfg : ProducerConfig)
    (env : Nat → Option String) (hf : ∀ j, env j ≠ none) :
    ∀ (n : Nat) (s : ProducerState) (i : Nat),
      cfg.maxReconnectAttempts - s.reconnectAttempts ≤ n →
      s.isInitialized = false → s.isShuttingDown = false →
      connectCount (initConn cfg env s i).trace =
        (cfg.maxReconnectAttempts - s.reconnectAttempts) + 1 := by
  intro n
  induction n with
  | zero =>
      intro s i h hni hsd
      cases he : env i with
      | none => exact absurd he (hf i)
      | some e =>
          rw [initConn_fail cfg env s i e hni hsd he]
          rw [attemptReconnect_maxed cfg env s (i + 1) (by omega)]
          simp [connectCount, List.countP_cons, isConnect]
          omega
  | succ n ih =>
      intro s i h hni hsd
      cases he : env i with
      | none => exact absurd he (hf i)
      | some e =>
          rw [initConn_fail cfg env s i e hni hsd he]
          by_cases hma : cfg.maxReconnectAttempts ≤ s.reconnectAttempts
          · rw [attemptReconnect_maxed cfg env s (i + 1) hma]
            simp [connectCount, List.countP_cons, isConnect]
            omega
          · rw [attemptReconnect_retry cfg env s (i + 1) hsd (by omega)]
            have hb := ih { s with reconnectAttempts := s.reconnectAttempts + 1 }
              (i + 1) (by simp; omega) hni hsd
            simp [connectCount, List.countP_cons, isConnect] at hb ⊢
            omega

/-- Counterexample for C8: with `maxReconnectAttempts = 2` and the broker
unreachable, one single failing `initialize()` call performs three
connection attempts (not one), because its catch block reaches
`attemptReconnect`, which awaits `initialize()` again — the retries happen
by direct recursion, not via the connection close handler. -/
theorem C8_counterexample :
    connectCount (initConn cfg2 envDown ProducerState.fresh 0).trace = 3 ∧
    (initConn cfg2 envDown ProducerState.fresh 0).err = some "ECONNREFUSED" := by
  constructor
  · simp [initConn, attemptReconnect, cfg2, envDown, ProducerState.fresh,
      connectCount, isConnect]
  · simp [initConn, attemptReconnect, cfg2, envDown, ProducerState.fresh]

/-- Claim C8 as amended: a single failing `initialize()` call retries by
direct recursion through `attemptReconnect`, performing exactly
`maxReconnectAttempts - reconnectAttempts + 1` connection attempts when
every bring-up fails (so a fresh producer makes `maxReconnectAttempts + 1`
attempts in one call), rather than one attempt re-triggered by the close
handler. -/
theorem C8_failing_init_recurses (cfg : ProducerConfig)
    (env : Nat → Option String) (s : ProducerState) (i : Nat)
    (hf : ∀ j, env j ≠ none) (hni : s.isInitialized = false)
    (hsd : s.isShuttingDown = false) :
    connectCount (initConn cfg env s i).trace =
      (cfg.maxReconnectAttempts - s.reconnectAttempts) + 1 :=
  connectCount_initConn_all_fail cfg env hf
    (cfg.maxReconnectAttempts - s.reconnectAttempts) s i le_rfl hni hsd

/-- Witness for C8: a fresh producer under `cfg2` with the broker down
makes `2 - 0 + 1` connection attempts in one `initialize()` call. -/
theorem C8_failing_init_recurses_witness :
    connectCount (initConn cfg2 envDown ProducerState.fresh 0).trace =
      (cfg2.maxReconnectAttempts - ProducerState.fresh.reconnectAttempts) + 1 :=
  C8_failing_init_recurses cfg2 envDown ProducerState.fresh 0
    (fun j => by simp [envDown]) rfl rfl

/-- two concurrent `initialize()` calls racing from a fresh producer. -/
def freshConc : ConcState :=
  { prod := ProducerState.fresh,
    tasks := [TaskPhase.ready, TaskPhase.ready], connectsInFlight := 0 }

/-- Counterexample for C9: two `initialize()` calls arriving while neither
has completed both pass the `isInitialized` guard and both start a
connection, so two connection attempts are in flight at once — not exactly
one. -/
theorem C9_counterexample :
    (runReadyTask (runReadyTask freshConc 0) 1).connectsInFlight = 2 := rfl

/-- Claim C9 as amended: `initialize()` deduplicates only a completed
initialization — a call that runs after `isInitialized` is set finishes
without starting a connection; but a call that runs while an attempt is
merely in flight passes the guard and starts its own connection, so N
concurrent calls can put up to N connection attempts in flight (one more
per ready task that runs while uninitialized). -/
theorem C9_no_inflight_dedup (c : ConcState) (j : Nat) :
    (c.prod.isInitialized = true →
      (runReadyTask c j).connectsInFlight = c.connectsInFlight) ∧
    (runReadyTask c j).connectsInFlight ≤ c.connectsInFlight + 1 ∧
    (c.tasks.get? j = some TaskPhase.ready → c.prod.isInitialized = false →
      (runReadyTask c j).connectsInFlight = c.connectsInFlight + 1) := by
  refine ⟨?_, ?_, ?_⟩
  · intro hI
    simp only [runReadyTask]
    split <;> simp [hI]
  · simp only [runReadyTask]
    split
    · split <;> simp
    · simp
  · intro hg hI
    simp only [runReadyTask]
    rw [hg]
    simp [hI]

/-- Witness for C9: the first racing call on a fresh producer starts a
connection attempt. -/
theorem C9_no_inflight_dedup_witness :
    (runReadyTask freshConc 0).connectsInFlight = 1 :=
  (C9_no_inflight_dedup freshConc 0).2.2 rfl rfl

/-! ## Envelope round trip (C6) -/

lemma decodeHeaders_encodeHeaders (h : MessageHeaders) :
    decodeHeaders (encodeHeaders h) = some h := rfl

lemma decodeMetadata_encodeMetadata (m : AuditLogMetadata) :
    decodeMetadata (encodeMetadata m) = some m := by
  obtain ⟨t, ts, v, so, sv, et, co, ca⟩ := m
  cases co <;> cases ca <;> rfl

lemma decodePayload_encodePayload (p : AuditLogPayload) :
    decodePayload (encodePayload p) = some p := by
  obtain ⟨u, un, ue, a, st, d, ch, md⟩ := p
  cases un <;> cases ue <;> cases a <;> cases st <;> cases ch <;> cases md <;> rfl

lemma decodeMessage_encodeMessage (m : AuditLogMessage) :
    decodeMessage (encodeMessage m) = some m := by
  obtain ⟨meta, p, hd⟩ := m
  cases hd with
  | none =>
      simp [encodeMessage, decodeMessage, List.lookup,
        decodeMetadata_encodeMetadata, decodePayload_encodePayload]
  | some h =>
      simp [encodeMessage, decodeMessage, List.lookup,
        decodeMetadata_encodeMetadata, decodePayload_encodePayload,
        decodeHeaders_encodeHeaders]

/-- Claim C6: for every tenant identifier, event type and payload, the
envelope built by `createMessage` round-trips through JSON serialization
and deserialization with all fields preserved, and its
`metadata.eventType` equals the input event type. -/
theorem C6_envelope_roundtrip (now tid et : String) (p : AuditLogPayload) :
    decodeMessage (encodeMessage (createMessage now tid et p)) =
      some (createMessage now tid et p) ∧
    (createMessage now tid et p).metadata.eventType = et :=
  ⟨decodeMessage_encodeMessage _, rfl⟩

end AuthService
